import Mathlib

/-!
Verification of the training pipeline of `studiowebux/ollama-tui`
(`src/training/feature_engineering.py` and `src/training/train_quality_model.py`).

Python strings are modelled as `List Char`; Python floats are modelled as exact
rationals (`ℚ`) in the feature-engineering layer and as reals (`ℝ`) where the
code takes square roots or exponentials (normalization, the sigmoid output of
the MLP).  IEEE rounding is abstracted away.
-/

namespace OllamaTraining

/-! ## Text primitives -/

/-- Word characters recognised by the regex `\b\w+\b` (ASCII fragment):
letters, digits and underscore. -/
def isWordChar (c : Char) : Bool := c.isAlphanum || c == '_'

/-- Helper for `tokenize`: walks the character list accumulating the current
run of word characters (in reverse). -/
def tokenizeGo : List Char → List Char → List (List Char)
  | [], acc => if acc.isEmpty then [] else [acc.reverse]
  | c :: rest, acc =>
      if isWordChar c then tokenizeGo rest (c :: acc)
      else if acc.isEmpty then tokenizeGo rest []
      else acc.reverse :: tokenizeGo rest []

/-- `re.findall(r'\b\w+\b', text)`: the maximal runs of word characters. -/
def tokenize (l : List Char) : List (List Char) := tokenizeGo l []

/-- Helper for `splitWords`: accumulates the current run of non-whitespace
characters (in reverse). -/
def splitWordsGo : List Char → List Char → List (List Char)
  | [], acc => if acc.isEmpty then [] else [acc.reverse]
  | c :: rest, acc =>
      if c.isWhitespace then
        if acc.isEmpty then splitWordsGo rest [] else acc.reverse :: splitWordsGo rest []
      else splitWordsGo rest (c :: acc)

/-- Python `str.split()`: split on whitespace runs, dropping empty pieces. -/
def splitWords (l : List Char) : List (List Char) := splitWordsGo l []

/-- Python `p in s`: `p` occurs as a contiguous substring of `s`. -/
def containsSub : List Char → List Char → Bool
  | [], p => p.isEmpty
  | c :: rest, p => p.isPrefixOf (c :: rest) || containsSub rest p

/-- The paragraph-break marker searched for by the code. -/
def ppMarker : List Char := String.toList "\n\n"

/-- The code-fence marker searched for by the code. -/
def fenceMarker : List Char := String.toList "\x60\x60\x60"

/-- The `- ` list marker searched for by the code. -/
def dashMarker : List Char := String.toList "- "

/-- The `* ` list marker searched for by the code. -/
def starMarker : List Char := String.toList "* "

/-! ## `feature_engineering.py` -/

/-- The fixed stopword set of `calculate_query_coverage`. -/
def stopwords : List (List Char) :=
  (["a", "an", "and", "are", "as", "at", "be", "by", "for", "from",
    "has", "he", "in", "is", "it", "its", "of", "on", "that", "the",
    "to", "was", "will", "with", "how", "what", "when", "where", "who", "why"
   ]).map String.toList

/-- `extract_significant_words(text, stopwords)`: lowercased word tokens of
length greater than 2 that are not stopwords. -/
def extract_significant_words (text : List Char) (stop : List (List Char)) :
    List (List Char) :=
  (tokenize (text.map Char.toLower)).filter (fun w => 2 < w.length && !(stop.contains w))

/-- `calculate_query_coverage(query, answer)`: fraction of significant query
words occurring as substrings of the lowercased answer; `0.0` when the query
has no significant words. -/
def calculate_query_coverage (query answer : List Char) : ℚ :=
  let query_words := extract_significant_words query stopwords
  let answer_lower := answer.map Char.toLower
  if query_words.isEmpty then 0
  else ((query_words.countP (fun w => containsSub answer_lower w) : ℚ)
        / (query_words.length : ℚ))

/-- `calculate_answer_completeness(answer)`: a length-bucketed base score plus
structure bonuses, capped at `1.0`. -/
def calculate_answer_completeness (answer : List Char) : ℚ :=
  let length_score : ℚ :=
    if answer.length < 50 then 3/10
    else if answer.length < 150 then 3/5
    else if answer.length < 500 then 4/5
    else 1
  let structure_bonus : ℚ :=
    (if containsSub answer ppMarker then 1/10 else 0) +
    (if containsSub answer fenceMarker || containsSub answer dashMarker
        || containsSub answer starMarker then 1/10 else 0)
  min 1 (length_score + structure_bonus)

/-- One parsed JSONL rating record (`InteractionRecord`). -/
structure Rating where
  context_used : Bool
  context_chunks : ℕ
  vector_top_k : ℕ
  vector_similarity : ℚ
  query : List Char
  answer : List Char
  rating : ℤ
deriving DecidableEq, Repr

/-- `extract_features(rating)`: the Python dict in its insertion order,
as an association list of feature name and value. -/
def extract_features (r : Rating) : List (String × ℚ) :=
  [ ("context_used", if r.context_used then 1 else 0),
    ("context_chunks", (r.context_chunks : ℚ)),
    ("vector_top_k", (r.vector_top_k : ℚ)),
    ("vector_similarity", r.vector_similarity),
    ("query_length", (r.query.length : ℚ)),
    ("answer_length", (r.answer.length : ℚ)),
    ("answer_query_ratio", (r.answer.length : ℚ) / ((max r.query.length 1 : ℕ) : ℚ)),
    ("query_coverage", calculate_query_coverage r.query r.answer),
    ("answer_completeness", calculate_answer_completeness r.answer),
    ("query_word_count", ((splitWords r.query).length : ℚ)),
    ("answer_word_count", ((splitWords r.answer).length : ℚ)),
    ("words_per_chunk",
      ((splitWords r.answer).length : ℚ) / ((max r.context_chunks 1 : ℕ) : ℚ)),
    ("has_paragraphs", if containsSub r.answer ppMarker then 1 else 0),
    ("has_code_blocks", if containsSub r.answer fenceMarker then 1 else 0),
    ("has_lists",
      if containsSub r.answer dashMarker || containsSub r.answer starMarker then 1 else 0),
    ("rating_score", ((r.rating : ℚ) - 1) / 4) ]

/-- The sixteen dict keys `extract_features` produces, in insertion order. -/
def allFeatureKeys : List String :=
  [ "context_used", "context_chunks", "vector_top_k", "vector_similarity",
    "query_length", "answer_length", "answer_query_ratio", "query_coverage",
    "answer_completeness", "query_word_count", "answer_word_count",
    "words_per_chunk", "has_paragraphs", "has_code_blocks", "has_lists",
    "rating_score" ]

/-- `extract_features_batch(ratings)`: feature matrix, target vector and the
feature-name list taken from the first vector's keys (target excluded).
A raised `ValueError` is modelled as `Except.error`; the dict indexing
`f[name]` (which cannot fail here, every vector has every key) is modelled
with a default of `0`. -/
def extract_features_batch (ratings : List Rating) :
    Except String (List (List ℚ) × List ℚ × List String) :=
  let all_features := ratings.map extract_features
  if all_features.isEmpty then Except.error "No ratings to process"
  else
    let feature_names := (all_features.headI.map Prod.fst).filter
      (fun k => !(k == "rating_score"))
    let X := all_features.map (fun f => feature_names.map (fun nm => (f.lookup nm).getD 0))
    let y := all_features.map (fun f => (f.lookup "rating_score").getD 0)
    Except.ok (X, y, feature_names)

/-- A concrete record used to instantiate hypothesis-bearing theorems. -/
def sampleRating : Rating :=
  ⟨true, 2, 3, 1/2, String.toList "hello world", String.toList "hi", 3⟩

/-! ## `normalize_features` over ℝ

`np.std` takes a square root, so this layer lives in `ℝ`. -/

/-- `np.mean(X, axis=0)`: the mean of column `j`. -/
noncomputable def colMean (m n : ℕ) (X : Fin m → Fin n → ℝ) (j : Fin n) : ℝ :=
  (∑ i, X i j) / m

/-- `np.std(X, axis=0)`: the population standard deviation of column `j`
(before the zero remap). -/
noncomputable def colStd0 (m n : ℕ) (X : Fin m → Fin n → ℝ) (j : Fin n) : ℝ :=
  Real.sqrt ((∑ i, (X i j - colMean m n X j) ^ 2) / m)

/-- `np.where(std == 0, 1, std)`: standard deviation with zeros remapped
to one. -/
noncomputable def colStd (m n : ℕ) (X : Fin m → Fin n → ℝ) (j : Fin n) : ℝ :=
  if colStd0 m n X j = 0 then 1 else colStd0 m n X j

/-- `(X - mean) / std`: entry `(i, j)` of the normalized matrix. -/
noncomputable def normalizeX (m n : ℕ) (X : Fin m → Fin n → ℝ)
    (i : Fin m) (j : Fin n) : ℝ :=
  (X i j - colMean m n X j) / colStd m n X j

/-- `normalize_features(X)`: the triple `(X_normalized, mean, std)`. -/
noncomputable def normalize_features (m n : ℕ) (X : Fin m → Fin n → ℝ) :
    (Fin m → Fin n → ℝ) × (Fin n → ℝ) × (Fin n → ℝ) :=
  (normalizeX m n X, colMean m n X, colStd m n X)

/-! ## Models of `train_quality_model.py` -/

/-- `torch.sigmoid`, the activation of the MLP's output layer. -/
noncomputable def sigmoid (x : ℝ) : ℝ := 1 / (1 + Real.exp (-x))

/-- `nn.ReLU` applied componentwise. -/
def reluVec {k : ℕ} (v : Fin k → ℝ) : Fin k → ℝ := fun i => max (v i) 0

/-- `nn.Linear`: an affine layer `W x + b`. -/
def denseLayer {mo ni : ℕ} (W : Fin mo → Fin ni → ℝ) (b : Fin mo → ℝ)
    (x : Fin ni → ℝ) : Fin mo → ℝ :=
  fun i => (∑ j, W i j * x j) + b i

/-- `QualityMLP.forward` with the default hidden sizes `[32, 16]`, in
evaluation mode (`nn.Dropout` is the identity outside training): two hidden
linear layers with ReLU, a final linear layer to one output, a sigmoid, and
`squeeze()` to a scalar. -/
noncomputable def qualityMLPForward (n : ℕ)
    (W1 : Fin 32 → Fin n → ℝ) (b1 : Fin 32 → ℝ)
    (W2 : Fin 16 → Fin 32 → ℝ) (b2 : Fin 16 → ℝ)
    (W3 : Fin 1 → Fin 16 → ℝ) (b3 : Fin 1 → ℝ)
    (x : Fin n → ℝ) : ℝ :=
  sigmoid (denseLayer W3 b3 (reluVec (denseLayer W2 b2 (reluVec (denseLayer W1 b1 x)))) 0)

/-- Modelled from the spec: `sklearn.linear_model.Ridge.predict` (the library
is outside this repository; the spec says the linear model holds a weight
vector plus bias and is unconstrained) is the affine map `w · x + b`. -/
def ridgePredict {n : ℕ} (w : Fin n → ℝ) (b : ℝ) (x : Fin n → ℝ) : ℝ :=
  (∑ j, w j * x j) + b

/-- `np.clip(v, 0, 1)`. -/
def clip01 (v : ℝ) : ℝ := min (max v 0) 1

/-- `train_linear_model`'s pipeline: predictions are clipped to [0,1] in a
post-processing step after `model.predict`, never inside the model. -/
def clippedRidgePredict {n : ℕ} (w : Fin n → ℝ) (b : ℝ) (x : Fin n → ℝ) : ℝ :=
  clip01 (ridgePredict w b x)

/-! ## The `main` pipeline of `train_quality_model.py` -/

/-- The fifteen-name feature schema (target excluded), as `main` receives it
from `extract_features_batch`. -/
def featureNamesList : List String := allFeatureKeys.filter fun k => !(k == "rating_score")

/-- The value stored for feature `nm` of one record (every schema name is
present in every vector, so the default is never taken). -/
def featureValue (r : Rating) (nm : String) : ℚ :=
  ((extract_features r).lookup nm).getD 0

/-- Entry `(i, j)` of the batch feature matrix, cast to ℝ. -/
def Xmat (rs : List Rating) : Fin rs.length → Fin 15 → ℝ :=
  fun i j => ((featureValue (rs.get i) (featureNamesList.getD (j : ℕ) "") : ℚ) : ℝ)

/-- A rectangular list-of-rows matrix read as a function, cast to ℝ. -/
def listMatrix (X : List (List ℚ)) (m : ℕ) : Fin m → Fin 15 → ℝ :=
  fun i j => (((X.getD (i : ℕ) []).getD (j : ℕ) 0 : ℚ) : ℝ)

/-- Outcome of one run of `main`, restricted to the data the claims are
about: either the early `return` (the process then exits with status 0), or
the completed run's metadata (feature names, mean, std) together with the
normalized train and test rows. -/
inductive MainResult : Type
  | earlyReturn (message : String) (exitCode : ℕ)
  | completed (metaNames : List String) (metaMean metaStd : Fin 15 → ℝ)
      (trainRows testRows : List (Fin 15 → ℝ))

/-- `main(ratings)` after argument parsing and loading: if fewer than 10
records, print the error and `return` (the interpreter then exits with
status 0); otherwise extract features, call `normalize_features` once on the
full matrix, split the normalized rows by an abstract test assignment
(modelling `train_test_split`'s seeded shuffle), and persist the metadata
holding the feature names and the very `(mean, std)` pair of that single
`normalize_features` call.  Model fitting and plotting mutate none of this
data and are omitted. -/
noncomputable def pythonMain (rs : List Rating) (isTest : Fin rs.length → Bool) :
    MainResult :=
  if rs.length < 10 then
    MainResult.earlyReturn "Error: Need at least 10 ratings to train a model" 0
  else
    match extract_features_batch rs with
    | Except.error msg => MainResult.earlyReturn msg 1
    | Except.ok (X, _y, feature_names) =>
        let Xf := listMatrix X rs.length
        let norm := normalize_features rs.length 15 Xf
        MainResult.completed feature_names norm.2.1 norm.2.2
          (((List.finRange rs.length).filter (fun i => !(isTest i))).map (fun i => norm.1 i))
          (((List.finRange rs.length).filter (fun i => isTest i)).map (fun i => norm.1 i))

/-- The process exit status of a run of `main`: the script never calls
`sys.exit`, so both paths terminate the process with status 0. -/
def mainExitStatus : MainResult → ℕ
  | MainResult.earlyReturn _ code => code
  | MainResult.completed _ _ _ _ _ => 0

/-! ## Lemmas about `containsSub` -/

theorem containsSub_nil (l : List Char) : containsSub l [] = true := by
  cases l <;> simp [containsSub, List.isPrefixOf]

theorem containsSub_append_of_left (a m p : List Char)
    (h : containsSub a p = true) : containsSub (a ++ m) p = true := by
  induction a with
  | nil =>
      simp only [containsSub, List.isEmpty_iff] at h
      subst h
      exact containsSub_nil m
  | cons c rest ih =>
      simp only [containsSub, Bool.or_eq_true] at h
      simp only [List.cons_append, containsSub, Bool.or_eq_true]
      rcases h with h | h
      · left
        rw [List.isPrefixOf_iff_prefix] at h ⊢
        exact h.trans (List.prefix_append (c :: rest) m)
      · right
        exact ih h

theorem ite_contains_le (a m p : List Char) (c : ℚ) (hc : 0 ≤ c) :
    (if containsSub a p then c else 0) ≤ (if containsSub (a ++ m) p then c else 0) := by
  by_cases h : containsSub a p = true
  · rw [if_pos h, if_pos (containsSub_append_of_left a m p h)]
  · rw [if_neg h]
    split_ifs <;> simp [hc]

theorem ite_containsOr_le (a m : List Char) (c : ℚ) (hc : 0 ≤ c) :
    (if containsSub a fenceMarker || containsSub a dashMarker
        || containsSub a starMarker then c else 0)
    ≤ (if containsSub (a ++ m) fenceMarker || containsSub (a ++ m) dashMarker
        || containsSub (a ++ m) starMarker then c else 0) := by
  by_cases h : (containsSub a fenceMarker || containsSub a dashMarker
      || containsSub a starMarker) = true
  · rw [if_pos h]
    simp only [Bool.or_eq_true] at h
    have : (containsSub (a ++ m) fenceMarker || containsSub (a ++ m) dashMarker
        || containsSub (a ++ m) starMarker) = true := by
      simp only [Bool.or_eq_true]
      rcases h with (h | h) | h
      · exact Or.inl (Or.inl (containsSub_append_of_left a m _ h))
      · exact Or.inl (Or.inr (containsSub_append_of_left a m _ h))
      · exact Or.inr (containsSub_append_of_left a m _ h)
    rw [if_pos this]
  · rw [if_neg h]
    split_ifs <;> simp [hc]

/-- Appending any suffix never decreases the completeness score: the length
bucket is monotone in length and substring tests are preserved by appending. -/
theorem completeness_append_mono (a m : List Char) :
    calculate_answer_completeness a ≤ calculate_answer_completeness (a ++ m) := by
  simp only [calculate_answer_completeness]
  apply min_le_min le_rfl
  have hls : (if a.length < 50 then (3:ℚ)/10
        else if a.length < 150 then 3/5 else if a.length < 500 then 4/5 else 1)
      ≤ (if (a ++ m).length < 50 then (3:ℚ)/10
        else if (a ++ m).length < 150 then 3/5
        else if (a ++ m).length < 500 then 4/5 else 1) := by
    simp only [List.length_append]
    split_ifs
    all_goals (try norm_num)
    all_goals omega
  exact add_le_add hls (add_le_add (ite_contains_le a m ppMarker (1/10) (by norm_num))
    (ite_containsOr_le a m (1/10) (by norm_num)))

/-- `lookup` succeeds on any key occurring in the association list. -/
theorem lookup_isSome_of_mem_keys {α β : Type} [BEq α] [LawfulBEq α]
    (l : List (α × β)) (a : α) (h : a ∈ l.map Prod.fst) :
    (l.lookup a).isSome = true := by
  induction l with
  | nil => simp at h
  | cons p rest ih =>
      obtain ⟨k, v⟩ := p
      simp only [List.map_cons, List.mem_cons] at h
      by_cases hb : a == k
      · simp [List.lookup, hb]
      · simp only [List.lookup, hb]
        rcases h with h | h
        · exact absurd (beq_iff_eq.2 h) (by simpa using hb)
        · exact ih h

/-! ## Claim theorems: feature engineering -/

/-- Claim C1: for a record whose rating is in {1,2,3,4,5}, `extract_features`
stores under `rating_score` exactly `(rating - 1) / 4`, a value in
{0, 1/4, 1/2, 3/4, 1}, with 1 mapping to 0, 3 to 1/2 and 5 to 1. -/
theorem rating_score_spec (r : Rating) (h : r.rating ∈ ([1, 2, 3, 4, 5] : List ℤ)) :
    (extract_features r).lookup "rating_score" = some (((r.rating : ℚ) - 1) / 4)
    ∧ ((r.rating : ℚ) - 1) / 4 ∈ ({0, 1/4, 1/2, 3/4, 1} : Set ℚ)
    ∧ (r.rating = 1 → ((r.rating : ℚ) - 1) / 4 = 0)
    ∧ (r.rating = 3 → ((r.rating : ℚ) - 1) / 4 = 1/2)
    ∧ (r.rating = 5 → ((r.rating : ℚ) - 1) / 4 = 1) := by
  refine ⟨by simp [extract_features, List.lookup], ?_, ?_, ?_, ?_⟩
  · simp only [List.mem_cons, List.not_mem_nil, or_false] at h
    rcases h with h | h | h | h | h <;>
      · rw [h]; simp only [Set.mem_insert_iff, Set.mem_singleton_iff]; norm_num
  · intro h1; rw [h1]; norm_num
  · intro h3; rw [h3]; norm_num
  · intro h5; rw [h5]; norm_num

/-- Claim C1 witness: the sample record has rating 3 and target value 1/2. -/
theorem rating_score_spec_witness :
    sampleRating.rating ∈ ([1, 2, 3, 4, 5] : List ℤ)
    ∧ ((sampleRating.rating : ℚ) - 1) / 4 = 1/2 :=
  ⟨by decide, (rating_score_spec sampleRating (by decide)).2.2.2.1 rfl⟩

/-- Claim C2 counterexample: for the empty query and empty answer, every
significant query word (there are none) vacuously occurs in the lowercased
answer, yet the coverage is 0, not 1 as the claim's third clause demands. -/
theorem query_coverage_vacuous_counterexample :
    ¬ ((∀ w ∈ extract_significant_words [] stopwords,
          containsSub (List.map Char.toLower []) w = true) →
        calculate_query_coverage [] [] = 1) := by decide

/-- The completeness score is at least 3/10: every length bucket scores at
least 3/10 and the structure bonuses are nonnegative. -/
theorem completeness_ge (a : List Char) :
    3/10 ≤ calculate_answer_completeness a := by
  simp only [calculate_answer_completeness]
  apply le_min (by norm_num)
  have h1 : (3:ℚ)/10 ≤ (if a.length < 50 then (3:ℚ)/10
      else if a.length < 150 then 3/5 else if a.length < 500 then 4/5 else 1) := by
    split_ifs <;> norm_num
  have h2 : (0:ℚ) ≤ (if containsSub a ppMarker then (1:ℚ)/10 else 0) := by
    split_ifs <;> norm_num
  have h3 : (0:ℚ) ≤ (if containsSub a fenceMarker || containsSub a dashMarker
      || containsSub a starMarker then (1:ℚ)/10 else 0) := by
    split_ifs <;> norm_num
  linarith

/-- The completeness score is capped at 1 by the final `min`. -/
theorem completeness_le (a : List Char) :
    calculate_answer_completeness a ≤ 1 := by
  simp only [calculate_answer_completeness]
  exact min_le_left _ _

/-- Claim C2 (amended): coverage lies in [0,1]; it is 0 when every lowercased
token of the query is short or a stopword; and it is 1 when the query has at
least one significant word and every significant word occurs as a substring of
the lowercased answer. -/
theorem query_coverage_spec (q a : List Char) :
    (0 ≤ calculate_query_coverage q a ∧ calculate_query_coverage q a ≤ 1)
    ∧ ((∀ w ∈ tokenize (q.map Char.toLower), w.length ≤ 2 ∨ w ∈ stopwords) →
        calculate_query_coverage q a = 0)
    ∧ (extract_significant_words q stopwords ≠ [] →
      (∀ w ∈ extract_significant_words q stopwords,
          containsSub (a.map Char.toLower) w = true) →
        calculate_query_coverage q a = 1) := by
  have key : (extract_significant_words q stopwords).isEmpty = false →
      calculate_query_coverage q a =
        (((extract_significant_words q stopwords).countP
            (fun w => containsSub (a.map Char.toLower) w) : ℚ)
          / ((extract_significant_words q stopwords).length : ℚ)) := by
    intro hne
    simp [calculate_query_coverage, hne]
  refine ⟨?_, ?_, ?_⟩
  · cases hq : (extract_significant_words q stopwords).isEmpty with
    | true =>
        simp [calculate_query_coverage, hq]
    | false =>
        have hnil : extract_significant_words q stopwords ≠ [] := by
          intro h0
          rw [h0] at hq
          simp at hq
        have hpos : 0 < ((extract_significant_words q stopwords).length : ℚ) := by
          exact_mod_cast List.length_pos.2 hnil
        rw [key hq]
        constructor
        · apply div_nonneg _ (le_of_lt hpos)
          exact_mod_cast Nat.zero_le _
        · rw [div_le_one hpos]
          exact_mod_cast List.countP_le_length _
  · intro hall
    have hnil : extract_significant_words q stopwords = [] := by
      apply List.filter_eq_nil_iff.2
      intro w hw
      simp only [Bool.and_eq_true, decide_eq_true_eq, Bool.not_eq_true']
      rintro ⟨hlong, hnc⟩
      rcases hall w hw with hlen | hmem
      · omega
      · have hct : stopwords.contains w = true := List.elem_eq_true_of_mem hmem
        rw [hct] at hnc
        exact Bool.noConfusion hnc
    simp [calculate_query_coverage, hnil]
  · intro hne hall
    have hq : (extract_significant_words q stopwords).isEmpty = false := by
      cases h0 : extract_significant_words q stopwords with
      | nil => exact absurd h0 hne
      | cons x xs => rfl
    rw [key hq]
    have hcount : (extract_significant_words q stopwords).countP
        (fun w => containsSub (a.map Char.toLower) w)
        = (extract_significant_words q stopwords).length :=
      List.countP_eq_length.2 (fun w hw => hall w hw)
    rw [hcount]
    apply div_self
    exact_mod_cast List.length_pos.2 hne |>.ne'

/-- Claim C2 witness: the spec's worked example — both significant words of
the query occur in the answer, so coverage is exactly 1. -/
theorem query_coverage_spec_witness :
    extract_significant_words (String.toList "what is the capital of france") stopwords ≠ []
    ∧ calculate_query_coverage (String.toList "what is the capital of france")
        (String.toList "Paris is the capital of France.") = 1 :=
  ⟨by decide,
    (query_coverage_spec (String.toList "what is the capital of france")
      (String.toList "Paris is the capital of France.")).2.2 (by decide) (by decide)⟩

/-- Claim C3: the completeness score equals the bucketed base plus the two
bonuses capped at 1, lies in [0,1], and appending a paragraph break or a
list/code marker never decreases it. -/
theorem answer_completeness_spec (a : List Char) :
    calculate_answer_completeness a =
      min 1 ((if a.length < 50 then (3:ℚ)/10
              else if a.length < 150 then 3/5
              else if a.length < 500 then 4/5 else 1)
             + ((if containsSub a ppMarker then 1/10 else 0)
               + (if containsSub a fenceMarker || containsSub a dashMarker
                    || containsSub a starMarker then 1/10 else 0)))
    ∧ 0 ≤ calculate_answer_completeness a
    ∧ calculate_answer_completeness a ≤ 1
    ∧ ∀ m ∈ [ppMarker, fenceMarker, dashMarker, starMarker],
        calculate_answer_completeness a ≤ calculate_answer_completeness (a ++ m) := by
  refine ⟨rfl, le_trans (by norm_num) (completeness_ge a), completeness_le a, ?_⟩
  intro m _
  exact completeness_append_mono a m

/-- Claim C3 witness: appending the list marker to a concrete short answer
does not decrease the score. -/
theorem answer_completeness_spec_witness :
    dashMarker ∈ [ppMarker, fenceMarker, dashMarker, starMarker]
    ∧ calculate_answer_completeness (String.toList "hi")
        ≤ calculate_answer_completeness (String.toList "hi" ++ dashMarker) :=
  ⟨by decide, (answer_completeness_spec (String.toList "hi")).2.2.2 dashMarker (by decide)⟩

/-- Claim C6: zero records make `extract_features_batch` fail with the
`ValueError` message; no dataset (not even an empty one) is returned. -/
theorem batch_empty_input_error :
    extract_features_batch [] = Except.error "No ratings to process"
    ∧ (extract_features_batch []).toOption = none :=
  ⟨rfl, rfl⟩

/-- Claim C7: every feature vector has exactly the same sixteen keys (fifteen
computed features plus the target `rating_score`); for a non-empty batch the
feature-name list is the first vector's keys without the target, and every
vector has every one of those keys. -/
theorem feature_schema_spec :
    (∀ r : Rating, (extract_features r).map Prod.fst = allFeatureKeys)
    ∧ allFeatureKeys.length = 16
    ∧ (allFeatureKeys.filter fun k => !(k == "rating_score")).length = 15
    ∧ ∀ rs : List Rating, rs ≠ [] →
        ∃ X y, extract_features_batch rs
            = Except.ok (X, y, allFeatureKeys.filter fun k => !(k == "rating_score"))
          ∧ ∀ r ∈ rs, ∀ nm ∈ allFeatureKeys.filter (fun k => !(k == "rating_score")),
              ((extract_features r).lookup nm).isSome = true := by
  refine ⟨fun r => rfl, rfl, rfl, ?_⟩
  intro rs hne
  match rs with
  | [] => exact absurd rfl hne
  | r :: rest =>
      refine ⟨_, _, rfl, ?_⟩
      intro r' _ nm hnm
      apply lookup_isSome_of_mem_keys
      rw [show (extract_features r').map Prod.fst = allFeatureKeys from rfl]
      exact (List.mem_filter.1 hnm).1

/-- Claim C7 witness: a singleton batch yields the fifteen-name schema and
every key lookup succeeds. -/
theorem feature_schema_spec_witness :
    ([sampleRating] : List Rating) ≠ []
    ∧ ∃ X y, extract_features_batch [sampleRating]
        = Except.ok (X, y, allFeatureKeys.filter fun k => !(k == "rating_score"))
      ∧ ∀ r ∈ [sampleRating], ∀ nm ∈ allFeatureKeys.filter (fun k => !(k == "rating_score")),
          ((extract_features r).lookup nm).isSome = true :=
  ⟨by simp, feature_schema_spec.2.2.2 [sampleRating] (by simp)⟩

/-! ## Lemmas for the ℝ layer -/

/-- The logistic function lies in [0, 1]. -/
theorem sigmoid_mem_unit (x : ℝ) : 0 ≤ sigmoid x ∧ sigmoid x ≤ 1 := by
  unfold sigmoid
  have hpos : (0:ℝ) < 1 + Real.exp (-x) := by positivity
  constructor
  · positivity
  · rw [div_le_one hpos]
    have := Real.exp_pos (-x)
    linarith

/-- On a non-empty record list, `extract_features_batch` succeeds and its
matrix rows, target vector and feature names have the stated closed forms. -/
theorem batch_eq_ok (rs : List Rating) (hne : rs ≠ []) :
    extract_features_batch rs
      = Except.ok (rs.map (fun r => featureNamesList.map (featureValue r)),
          rs.map (fun r => ((extract_features r).lookup "rating_score").getD 0),
          featureNamesList) := by
  match rs with
  | [] => exact absurd rfl hne
  | r :: rest =>
      simp only [extract_features_batch, List.map_cons, List.isEmpty_cons,
        Bool.false_eq_true, if_false, List.map_map]
      rfl

/-- Reading the mapped row list back as a matrix gives `Xmat`. -/
theorem listMatrix_map_eq (rs : List Rating) :
    listMatrix (rs.map fun r => featureNamesList.map (featureValue r)) rs.length
      = Xmat rs := by
  funext i j
  unfold listMatrix Xmat
  norm_cast
  have hi : (i : ℕ) < (rs.map fun r => featureNamesList.map (featureValue r)).length := by
    rw [List.length_map]
    exact i.isLt
  have h1 : (rs.map fun r => featureNamesList.map (featureValue r)).getD (i : ℕ) []
      = featureNamesList.map (featureValue (rs.get i)) := by
    rw [List.getD_eq_getElem?_getD, List.getElem?_map,
      List.getElem?_eq_getElem i.isLt]
    simp [List.get_eq_getElem]
  rw [h1]
  have hj : (j : ℕ) < featureNamesList.length := j.isLt
  rw [List.getD_eq_getElem?_getD, List.getElem?_map, List.getElem?_eq_getElem hj,
    List.getD_eq_getElem?_getD, List.getElem?_eq_getElem hj]
  rfl

/-- Claim C10: the completeness score always lies in [3/10, 1], a range
strictly tighter than [0,1]; in particular the empty answer scores 3/10. -/
theorem answer_completeness_range_tight :
    (∀ a : List Char, 3/10 ≤ calculate_answer_completeness a
        ∧ calculate_answer_completeness a ≤ 1)
    ∧ calculate_answer_completeness [] = 3/10 :=
  ⟨fun a => ⟨completeness_ge a, completeness_le a⟩, by
    have h1 : containsSub [] ppMarker = false := by decide
    have h2 : containsSub [] fenceMarker = false := by decide
    have h3 : containsSub [] dashMarker = false := by decide
    have h4 : containsSub [] starMarker = false := by decide
    simp [calculate_answer_completeness, h1, h2, h3, h4, min_def]
    norm_num⟩

/-- Claim C4: normalization round-trips — `X_normalized * std + mean`
reconstructs `X` exactly (the remapped std is never zero), and a column whose
pre-remap standard deviation was zero has all normalized entries zero and
reconstructs to the column mean. -/
theorem normalize_roundtrip (m n : ℕ) (X : Fin m → Fin n → ℝ)
    (i : Fin m) (j : Fin n) :
    normalizeX m n X i j * colStd m n X j + colMean m n X j = X i j
    ∧ (colStd0 m n X j = 0 →
        normalizeX m n X i j = 0
        ∧ normalizeX m n X i j * colStd m n X j + colMean m n X j
            = colMean m n X j) := by
  have hstd : colStd m n X j ≠ 0 := by
    unfold colStd
    split_ifs with h
    · exact one_ne_zero
    · exact h
  constructor
  · unfold normalizeX
    rw [div_mul_cancel₀ _ hstd]
    ring
  · intro h0
    have hmean : X i j = colMean m n X j := by
      unfold colStd0 at h0
      have hnn : 0 ≤ (∑ k, (X k j - colMean m n X j) ^ 2) / (m : ℝ) := by
        apply div_nonneg
        · exact Finset.sum_nonneg fun k _ => sq_nonneg _
        · exact Nat.cast_nonneg m
      have hvar : (∑ k, (X k j - colMean m n X j) ^ 2) / (m : ℝ) = 0 :=
        le_antisymm (Real.sqrt_eq_zero'.1 h0) hnn
      have hm : (0:ℝ) < m := by
        exact_mod_cast i.pos
      have hsum : (∑ k, (X k j - colMean m n X j) ^ 2) = 0 := by
        rcases div_eq_zero_iff.1 hvar with hs | hm0
        · exact hs
        · exact absurd hm0 (ne_of_gt hm)
      have hterm : (X i j - colMean m n X j) ^ 2 = 0 :=
        (Finset.sum_eq_zero_iff_of_nonneg
          (fun k _ => sq_nonneg (X k j - colMean m n X j))).1 hsum i (Finset.mem_univ i)
      have := pow_eq_zero_iff (two_ne_zero) |>.1 hterm
      linarith [sub_eq_zero.1 this]
    refine ⟨?_, ?_⟩
    · unfold normalizeX
      rw [hmean, sub_self, zero_div]
    · unfold normalizeX
      rw [hmean, sub_self, zero_div, zero_mul, zero_add]

/-- Claim C4 witness: a constant 2×1 matrix has pre-remap std 0, its
normalized entries are 0, and it reconstructs to its column mean. -/
theorem normalize_roundtrip_witness :
    colStd0 2 1 (fun _ _ => (3:ℝ)) 0 = 0
    ∧ normalizeX 2 1 (fun _ _ => (3:ℝ)) 0 0 = 0
    ∧ normalizeX 2 1 (fun _ _ => (3:ℝ)) 0 0 * colStd 2 1 (fun _ _ => (3:ℝ)) 0
        + colMean 2 1 (fun _ _ => (3:ℝ)) 0 = colMean 2 1 (fun _ _ => (3:ℝ)) 0 := by
  have h0 : colStd0 2 1 (fun _ _ => (3:ℝ)) 0 = 0 := by
    unfold colStd0 colMean
    norm_num [Fin.sum_univ_two]
  exact ⟨h0, (normalize_roundtrip 2 1 (fun _ _ => (3:ℝ)) 0 0).2 h0⟩

/-- Claim C8: the MLP's raw output always lies in [0,1] because of the final
sigmoid (no clipping step); the ridge model's raw prediction can leave [0,1]
and is restored to [0,1] only by the `np.clip` applied after `predict`. -/
theorem model_output_bounds :
    (∀ (n : ℕ) (W1 : Fin 32 → Fin n → ℝ) (b1 : Fin 32 → ℝ)
        (W2 : Fin 16 → Fin 32 → ℝ) (b2 : Fin 16 → ℝ)
        (W3 : Fin 1 → Fin 16 → ℝ) (b3 : Fin 1 → ℝ) (x : Fin n → ℝ),
        0 ≤ qualityMLPForward n W1 b1 W2 b2 W3 b3 x
        ∧ qualityMLPForward n W1 b1 W2 b2 W3 b3 x ≤ 1)
    ∧ (∃ (w : Fin 1 → ℝ) (b : ℝ) (x : Fin 1 → ℝ), 1 < ridgePredict w b x)
    ∧ (∀ (n : ℕ) (w : Fin n → ℝ) (b : ℝ) (x : Fin n → ℝ),
        clippedRidgePredict w b x = clip01 (ridgePredict w b x)
        ∧ 0 ≤ clippedRidgePredict w b x ∧ clippedRidgePredict w b x ≤ 1) := by
  refine ⟨?_, ?_, ?_⟩
  · intro n W1 b1 W2 b2 W3 b3 x
    exact sigmoid_mem_unit _
  · refine ⟨fun _ => 0, 2, fun _ => 0, ?_⟩
    simp [ridgePredict]
  · intro n w b x
    refine ⟨rfl, ?_, ?_⟩
    · unfold clippedRidgePredict clip01
      exact le_min (le_max_right _ 0) zero_le_one
    · unfold clippedRidgePredict clip01
      exact min_le_right _ 1

/-- Claim C5 (amended): with fewer than 10 records, `main` fails fast — it
prints the insufficient-data error and returns before any split or fit — but
the process terminates normally with exit status 0, not a non-zero status. -/
theorem insufficient_data_early_return (rs : List Rating)
    (isTest : Fin rs.length → Bool) (h : rs.length < 10) :
    pythonMain rs isTest
      = MainResult.earlyReturn "Error: Need at least 10 ratings to train a model" 0
    ∧ mainExitStatus (pythonMain rs isTest) = 0 := by
  unfold pythonMain
  rw [if_pos h]
  exact ⟨rfl, rfl⟩

/-- Claim C5 witness: eight records take the early-return path with
exit status 0. -/
theorem insufficient_data_early_return_witness :
    (List.replicate 8 sampleRating).length < 10
    ∧ pythonMain (List.replicate 8 sampleRating) (fun _ => false)
        = MainResult.earlyReturn "Error: Need at least 10 ratings to train a model" 0
    ∧ mainExitStatus (pythonMain (List.replicate 8 sampleRating) (fun _ => false)) = 0 :=
  ⟨by decide,
    insufficient_data_early_return (List.replicate 8 sampleRating) (fun _ => false)
      (by decide)⟩

/-- Claim C5 counterexample: nine records trigger the insufficient-data path,
yet the process exit status is 0 — refuting the claimed non-zero/error exit
status. -/
theorem insufficient_data_exit_zero_counterexample :
    mainExitStatus (pythonMain (List.replicate 9 sampleRating) (fun _ => false)) = 0
    ∧ ¬ mainExitStatus (pythonMain (List.replicate 9 sampleRating) (fun _ => false)) ≠ 0 :=
  ⟨rfl, fun hne => hne rfl⟩

/-- Claim C9: with at least 10 records, `main` computes the normalization
statistics exactly once, from the full matrix (every row, including those the
split later holds out), and that single `(mean, std)` pair both produces the
train and test rows and is the pair persisted in the metadata. -/
theorem normalization_fit_once (rs : List Rating) (isTest : Fin rs.length → Bool)
    (h : 10 ≤ rs.length) :
    pythonMain rs isTest
      = MainResult.completed featureNamesList
          (colMean rs.length 15 (Xmat rs)) (colStd rs.length 15 (Xmat rs))
          (((List.finRange rs.length).filter (fun i => !(isTest i))).map
            (fun i j => (Xmat rs i j - colMean rs.length 15 (Xmat rs) j)
              / colStd rs.length 15 (Xmat rs) j))
          (((List.finRange rs.length).filter (fun i => isTest i)).map
            (fun i j => (Xmat rs i j - colMean rs.length 15 (Xmat rs) j)
              / colStd rs.length 15 (Xmat rs) j))
    ∧ (∀ j, colMean rs.length 15 (Xmat rs) j = (∑ i, Xmat rs i j) / rs.length)
    ∧ (∀ j, colStd rs.length 15 (Xmat rs) j =
        if Real.sqrt ((∑ i, (Xmat rs i j
              - colMean rs.length 15 (Xmat rs) j) ^ 2) / rs.length) = 0
        then 1
        else Real.sqrt ((∑ i, (Xmat rs i j
              - colMean rs.length 15 (Xmat rs) j) ^ 2) / rs.length)) := by
  have hne : rs ≠ [] := by
    intro h0
    rw [h0] at h
    simp at h
  refine ⟨?_, fun j => rfl, fun j => rfl⟩
  unfold pythonMain
  rw [if_neg (by omega), batch_eq_ok rs hne]
  show MainResult.completed featureNamesList
      (colMean rs.length 15 (listMatrix (rs.map fun r =>
        featureNamesList.map (featureValue r)) rs.length))
      (colStd rs.length 15 (listMatrix (rs.map fun r =>
        featureNamesList.map (featureValue r)) rs.length))
      _ _ = _
  rw [listMatrix_map_eq rs]
  rfl

/-- Claim C9 witness: ten identical records pass the threshold; the persisted
mean of column 0 is the full-matrix mean formula. -/
theorem normalization_fit_once_witness :
    10 ≤ (List.replicate 10 sampleRating).length
    ∧ colMean (List.replicate 10 sampleRating).length 15
        (Xmat (List.replicate 10 sampleRating)) 0
      = (∑ i, Xmat (List.replicate 10 sampleRating) i 0)
        / (List.replicate 10 sampleRating).length :=
  ⟨by decide,
    (normalization_fit_once (List.replicate 10 sampleRating) (fun _ => false)
      (by decide)).2.1 0⟩

end OllamaTraining
